import Mathlib

/-!
Shallow embedding of the anti-spam throttling and reachability-inference
decision engine of `smart_secretary.py`.

Time instants and durations are modelled as rationals (`ℚ`), standing for
the floating-point epoch seconds the program manipulates.  Every call the
program makes to the real clock, the file system, the network probe or the
messaging transport is modelled by passing the observed outcome of that
call as an explicit argument, so each operation becomes a pure function of
its inputs.
-/

/-- A value stored in the cooldown log for a correspondent: the source
stores either raw numeric epoch seconds (`int`/`float`) or an ISO-8601
string.  A parseable ISO string is represented by the wall-clock instant
it denotes (in epoch seconds, read naively) together with its optional
UTC offset; a string rejected by `datetime.fromisoformat` (raising
`ValueError`) is represented as `malformed`. -/
inductive IsoString where
  | valid (wallclock : ℚ) (offset : Option ℚ)
  | malformed (raw : String)
  deriving DecidableEq

/-- The `Union[float, str]` type of values in the responses log. -/
inductive TimeValue where
  | num (x : ℚ)
  | iso (s : IsoString)
  deriving DecidableEq

/-- `ResponseManager._convert_to_timestamp`: numbers pass through;
a parseable ISO string with a timezone offset is converted to UTC
(`dt.astimezone(timezone.utc).timestamp()`, i.e. wall-clock minus offset);
one without an offset is assumed UTC (`dt.replace(tzinfo=timezone.utc)`);
a malformed string yields `0.0`. -/
def convert_to_timestamp : TimeValue → ℚ
  | TimeValue.num x => x
  | TimeValue.iso (IsoString.valid w (some off)) => w - off
  | TimeValue.iso (IsoString.valid w none) => w
  | TimeValue.iso (IsoString.malformed _) => 0

/-- Whether `_convert_to_timestamp` emits its `logger.error` line
("Failed to parse time string") for the given value: exactly the
malformed-string branch. -/
def convert_logged_error : TimeValue → Bool
  | TimeValue.iso (IsoString.malformed _) => true
  | _ => false

/-- The in-memory responses log: a JSON object mapping correspondent ids
to stored time values, modelled as an insertion-ordered association list
with (by the JSON object invariant) unique keys. -/
abbrev Log := List (String × TimeValue)

/-- Python dict lookup `log.get(user_id)`. -/
def logGet : Log → String → Option TimeValue
  | [], _ => none
  | p :: rest, k => if p.1 = k then some p.2 else logGet rest k

/-- Python dict assignment `log[user_id] = v`: replaces the entry in
place when the key is present, otherwise appends it at the end. -/
def logSet : Log → String → TimeValue → Log
  | [], k, v => [(k, v)]
  | p :: rest, k, v => if p.1 = k then (k, v) :: rest else p :: logSet rest k v

/-- The keys of a log, in insertion order. -/
def logKeys (log : Log) : List String := log.map Prod.fst

/-- `AdminStatusCache`: single global slot caching the owner's
reachability, with a time-to-live.  The constructor initialises the slot
to `is_online = False` observed at time `0.0`. -/
structure AdminStatusCache where
  ttl : ℚ
  is_online : Bool
  timestamp : ℚ
  deriving DecidableEq

/-- `AdminStatusCache.__init__`. -/
def AdminStatusCache.init (ttl : ℚ) : AdminStatusCache :=
  AdminStatusCache.mk ttl false 0

/-- `AdminStatusCache.get`: returns the cached boolean while
`now - timestamp < ttl`, otherwise `None` (cache miss). -/
def AdminStatusCache.get (c : AdminStatusCache) (now : ℚ) : Option Bool :=
  if now - c.timestamp < c.ttl then some c.is_online else none

/-- `AdminStatusCache.set`: unconditionally overwrites the slot with the
new value, stamped with the current time. -/
def AdminStatusCache.set (c : AdminStatusCache) (v : Bool) (now : ℚ) : AdminStatusCache :=
  AdminStatusCache.mk c.ttl v now

/-- The presence signal reported by the transport for the owner account:
`UserStatusOnline`, `UserStatusRecently`, `UserStatusOffline` with an
optional `was_online` instant, or any other/unrecognized status type. -/
inductive UserStatus where
  | online
  | recently
  | offline (was_online : Option ℚ)
  | other
  deriving DecidableEq

/-- The live-classification chain of `check_admin_online_status`
(the `isinstance` cascade on the probed status): online/recently are
reachable; offline with a `was_online` instant is reachable iff the
last-seen delta is within the threshold; offline without a timestamp and
any other status type are unreachable. -/
def classify_status (online_threshold now : ℚ) : UserStatus → Bool
  | UserStatus.online => true
  | UserStatus.recently => true
  | UserStatus.offline (some t) => decide (now - t ≤ online_threshold)
  | UserStatus.offline none => false
  | UserStatus.other => false

/-- Outcome of the external presence probe (`GetUsersRequest`): either a
status, or any raised exception (network failure, lookup failure). -/
inductive ProbeResult where
  | ok (status : UserStatus)
  | error
  deriving DecidableEq

/-- Result of `check_admin_online_status`: the boolean returned, the
cache state afterwards, and whether the probe-error `logger.error` line
("Error checking admin status") was emitted. -/
structure CheckResult where
  is_online : Bool
  cache : AdminStatusCache
  probeErrorLogged : Bool
  deriving DecidableEq

/-- `check_admin_online_status`: on a cache hit the cached value is
returned and nothing else happens; on a miss the probe outcome is
classified (any probe exception is caught, logged, and yields the
fail-safe `False`), the cache is updated with the result, and the result
is returned. -/
def check_admin_online_status (online_threshold : ℚ) (cache : AdminStatusCache)
    (probe : ProbeResult) (now : ℚ) : CheckResult :=
  match AdminStatusCache.get cache now with
  | some b => CheckResult.mk b cache false
  | none =>
    match probe with
    | ProbeResult.ok s =>
      let b := classify_status online_threshold now s
      CheckResult.mk b (AdminStatusCache.set cache b now) false
    | ProbeResult.error =>
      CheckResult.mk false (AdminStatusCache.set cache false now) true

/-- State of the backing responses file as observed by one `open`/read:
absent, present with parseable JSON content, present but with content
`json.load` rejects (`JSONDecodeError`), or present but unreadable
(`IOError` raised by the read). -/
inductive FileState where
  | absent
  | ok (log : Log)
  | corrupt
  | ioError
  deriving DecidableEq

/-- The backup path used for a corrupt log file:
`<original_name>.corrupted_<unix_ts>.bak`, where `unix_ts` is
`int(time.time())` sampled inside the corruption handler. -/
def backup_name (file : String) (ts : Int) : String :=
  file ++ ".corrupted_" ++ toString ts ++ ".bak"

/-- Outcome of `ResponseManager.load_log`: the returned log or the
raised `RuntimeError` ("Cannot safely proceed without log file access"),
plus the observable side effects — the backup file created (if any), the
critical log line naming the backup (if emitted), whether the
backup-copy failure was logged, and whether the fatal-I/O critical line
was emitted. -/
structure LoadOutcome where
  result : Except Unit Log
  backupCreated : Option String
  criticalNamedBackup : Option String
  backupErrorLogged : Bool
  fatalIoLogged : Bool

/-- `ResponseManager.load_log`: a missing file yields an empty log; a
readable parseable file yields its contents; a corrupt file is copied to
a timestamped backup (when the copy itself succeeds — `copyOk`), the
backup is named in a critical log line, and an empty log is returned
either way; an I/O error while reading raises `RuntimeError` after a
critical log line. -/
def load_log (file : String) (fs : FileState) (bts : Int) (copyOk : Bool) : LoadOutcome :=
  match fs with
  | FileState.absent => LoadOutcome.mk (Except.ok []) none none false false
  | FileState.ok log => LoadOutcome.mk (Except.ok log) none none false false
  | FileState.corrupt =>
    if copyOk then
      LoadOutcome.mk (Except.ok []) (some (backup_name file bts))
        (some (backup_name file bts)) false false
    else
      LoadOutcome.mk (Except.ok []) none none true false
  | FileState.ioError => LoadOutcome.mk (Except.error ()) none none false true

/-- The decision core of `ResponseManager.should_reply` on a loaded log:
reply when no entry exists for the correspondent, or when
`time.time() - last_response_timestamp >= CONVERSATION_THRESHOLD_SEC`. -/
def should_reply_core (threshold : ℚ) (log : Log) (user_id : String) (now : ℚ) : Bool :=
  match logGet log user_id with
  | none => true
  | some v => decide (now - convert_to_timestamp v ≥ threshold)

/-- `ResponseManager.should_reply`: loads the log (propagating the
`RuntimeError` of an I/O failure) and applies the decision core. -/
def should_reply (threshold : ℚ) (file : String) (fs : FileState) (bts : Int)
    (copyOk : Bool) (user_id : String) (now : ℚ) : Except Unit Bool :=
  match (load_log file fs bts copyOk).result with
  | Except.error e => Except.error e
  | Except.ok log => Except.ok (should_reply_core threshold log user_id now)

/-- The value `datetime.now(timezone.utc).isoformat()` stored by
`save_log`: an ISO string carrying an explicit `+00:00` offset and
denoting the instant `t`. -/
def now_iso (t : ℚ) : TimeValue :=
  TimeValue.iso (IsoString.valid t (some 0))

/-- Outcome of `ResponseManager.save_log`: the propagated load error if
any, the file state afterwards, the log actually written (if a write
happened), and whether the write-failure `logger.error` line was
emitted. -/
structure SaveOutcome where
  result : Except Unit Unit
  fsAfter : FileState
  written : Option Log
  writeErrorLogged : Bool

/-- `ResponseManager.save_log`: reloads the log from storage (an I/O
failure there raises out of `save_log`), upserts the correspondent's
entry with the current UTC instant in ISO form, and writes the whole
log back; an `IOError` during the write is only logged
("Failed to save log file"), leaving the previous file state. -/
def save_log (file user_id : String) (fs : FileState) (tSave : ℚ) (bts : Int)
    (copyOk : Bool) (writeOk : Bool) : SaveOutcome :=
  match (load_log file fs bts copyOk).result with
  | Except.error e => SaveOutcome.mk (Except.error e) fs none false
  | Except.ok log =>
    let newLog := logSet log user_id (now_iso tSave)
    if writeOk then
      SaveOutcome.mk (Except.ok ()) (FileState.ok newLog) (some newLog) false
    else
      SaveOutcome.mk (Except.ok ()) fs none true

/-- Outcome of one external transport call (`get_input_chat`,
`SetTypingRequest`, `event.reply`): success, a `FloodWaitError`
carrying its backoff in seconds, or any other exception. -/
inductive SendOutcome where
  | ok
  | floodWait (seconds : ℚ)
  | otherError
  deriving DecidableEq

/-- The configuration values `process_message` reads: the cooldown
window `CONVERSATION_THRESHOLD_SEC`, the `ONLINE_THRESHOLD_SEC` used by
the status check, the response-text pieces, and the responses-file
path. -/
structure SecretaryConfig where
  conversation_threshold : ℚ
  online_threshold : ℚ
  header : String
  dynamic_online : String
  dynamic_offline : String
  action_text : String
  responses_file : String
  deriving DecidableEq

/-- The response text assembled by `process_message`: header, then the
online or offline dynamic part, then the action text. -/
def response_text (cfg : SecretaryConfig) (is_online : Bool) : String :=
  cfg.header ++ (if is_online then cfg.dynamic_online else cfg.dynamic_offline)
    ++ cfg.action_text

/-- The outcomes of the external calls one run of `process_message`
makes, in program order: the event-filter facts (`event.out`, whether
the chat is an individual user, whether it is a bot), the file state
seen by `should_reply`'s load (with its backup-clock sample and
copy outcome), the `get_input_chat` outcome, the presence-probe
outcome, the typing-indicator outcome, the send outcome, and the file
state seen by `save_log`'s load together with its write outcome. -/
structure ProcessEnv where
  eventOut : Bool
  chatIsUser : Bool
  chatBot : Bool
  fs1 : FileState
  bts1 : Int
  copyOk1 : Bool
  inputChat : SendOutcome
  probe : ProbeResult
  typing : SendOutcome
  send : SendOutcome
  fs2 : FileState
  bts2 : Int
  copyOk2 : Bool
  writeOk : Bool

/-- Observable result of one run of `process_message`: whether an
exception escaped the handler, the reply text actually sent (if any),
the `FloodWait` backoff slept (if any), whether the generic
"Ошибка при обработке сообщения" error was logged, whether the
probe-error line was logged, whether the save-write failure was logged,
the log written to storage (if a write happened), and the status cache
afterwards. -/
structure ProcessResult where
  raised : Bool
  sentText : Option String
  sleptBackoff : Option ℚ
  genericErrorLogged : Bool
  probeErrorLogged : Bool
  writeErrorLogged : Bool
  written : Option Log
  cache : AdminStatusCache

/-- The result of a run that filters the event out or is stopped by the
anti-spam check: no side effects at all. -/
def quiet_result (cache : AdminStatusCache) : ProcessResult :=
  ProcessResult.mk false none none false false false none cache

/-- `process_message`: filter the event; run the anti-spam check (whose
load failure propagates out — it sits before the `try` block); inside
the `try`, fetch the input chat, run the cached status check, assemble
the text, send the typing indicator, wait, send the reply, and record
the reply in the log.  A `FloodWaitError` anywhere inside the `try` is
caught and slept through; any other exception there (including the
`RuntimeError` a storage failure raises inside `save_log`) is caught
and logged; either way the event is abandoned at that point. -/
def process_message (cfg : SecretaryConfig) (cache : AdminStatusCache)
    (env : ProcessEnv) (sender : String) (now tSave : ℚ) : ProcessResult :=
  if env.eventOut then quiet_result cache
  else if !(env.chatIsUser && !env.chatBot) then quiet_result cache
  else
    match (load_log cfg.responses_file env.fs1 env.bts1 env.copyOk1).result with
    | Except.error _ => ProcessResult.mk true none none false false false none cache
    | Except.ok log =>
      if !should_reply_core cfg.conversation_threshold log sender now then
        quiet_result cache
      else
        match env.inputChat with
        | SendOutcome.floodWait s =>
          ProcessResult.mk false none (some s) false false false none cache
        | SendOutcome.otherError =>
          ProcessResult.mk false none none true false false none cache
        | SendOutcome.ok =>
          let ck := check_admin_online_status cfg.online_threshold cache env.probe now
          let text := response_text cfg ck.is_online
          match env.typing with
          | SendOutcome.floodWait s =>
            ProcessResult.mk false none (some s) false ck.probeErrorLogged false none ck.cache
          | SendOutcome.otherError =>
            ProcessResult.mk false none none true ck.probeErrorLogged false none ck.cache
          | SendOutcome.ok =>
            match env.send with
            | SendOutcome.floodWait s =>
              ProcessResult.mk false none (some s) false ck.probeErrorLogged false none ck.cache
            | SendOutcome.otherError =>
              ProcessResult.mk false none none true ck.probeErrorLogged false none ck.cache
            | SendOutcome.ok =>
              let sv := save_log cfg.responses_file sender env.fs2 tSave env.bts2
                env.copyOk2 env.writeOk
              match sv.result with
              | Except.error _ =>
                ProcessResult.mk false (some text) none true ck.probeErrorLogged false none ck.cache
              | Except.ok _ =>
                ProcessResult.mk false (some text) none false ck.probeErrorLogged
                  sv.writeErrorLogged sv.written ck.cache

theorem logGet_logSet_same (log : Log) (k : String) (v : TimeValue) :
    logGet (logSet log k v) k = some v := by
  induction log with
  | nil => simp [logSet, logGet]
  | cons p rest ih =>
    by_cases h : p.1 = k
    · simp [logSet, logGet, h]
    · simp [logSet, logGet, h, ih]

theorem logGet_logSet_other (log : Log) (k k2 : String) (v : TimeValue)
    (h : k2 ≠ k) : logGet (logSet log k v) k2 = logGet log k2 := by
  induction log with
  | nil => simp [logSet, logGet, h, Ne.symm h]
  | cons p rest ih =>
    by_cases hp : p.1 = k
    · simp [logSet, logGet, hp, h, Ne.symm h]
    · simp [logSet, logGet, hp, ih]

theorem logKeys_logSet (log : Log) (k : String) (v : TimeValue) :
    logKeys (logSet log k v)
      = (if k ∈ logKeys log then logKeys log else logKeys log ++ [k]) := by
  induction log with
  | nil => simp [logSet, logKeys]
  | cons p rest ih =>
    by_cases hp : p.1 = k
    · simp [logSet, logKeys, hp]
    · simp only [logKeys, List.map_cons] at ih ⊢
      simp only [logSet, if_neg hp, List.map_cons]
      rw [ih]
      have hkp : ¬k = p.1 := Ne.symm hp
      by_cases hk : k ∈ List.map Prod.fst rest
      · simp [hk, hkp]
      · simp [hk, hkp]

theorem logKeys_logSet_nodup (log : Log) (k : String) (v : TimeValue)
    (h : (logKeys log).Nodup) : (logKeys (logSet log k v)).Nodup := by
  rw [logKeys_logSet]
  by_cases hk : k ∈ logKeys log
  · simp [hk, h]
  · simp [hk, h, List.nodup_append]

/-- Claim C2 — reachability classification: an active-now or
recently-active signal classifies as reachable; an offline signal with a
last-seen instant classifies as reachable exactly when `now - t` is
within the threshold; an offline signal without a last-seen instant and
any other (unknown) signal classify as unreachable. -/
theorem reachability_classification (thr now t : ℚ) :
    classify_status thr now UserStatus.online = true
    ∧ classify_status thr now UserStatus.recently = true
    ∧ (classify_status thr now (UserStatus.offline (some t)) = true ↔ now - t ≤ thr)
    ∧ classify_status thr now (UserStatus.offline none) = false
    ∧ classify_status thr now UserStatus.other = false := by
  refine ⟨rfl, rfl, ?_, rfl, rfl⟩
  simp [classify_status]

/-- Claim C3 — cache TTL boundary: after `set v` at `t0`, `get` at `t`
returns `some v` exactly while `t - t0 < ttl` and `none` once
`t - t0 ≥ ttl`; and `set` unconditionally overwrites the slot, keeping
the ttl, storing the value and stamping the current time. -/
theorem cache_ttl_boundary (c : AdminStatusCache) (v : Bool) (t0 t : ℚ) :
    AdminStatusCache.get (AdminStatusCache.set c v t0) t
      = (if t - t0 < c.ttl then some v else none)
    ∧ AdminStatusCache.set c v t0 = AdminStatusCache.mk c.ttl v t0 := by
  exact ⟨rfl, rfl⟩

/-- Claim C5 — corrupt-log recovery: loading an existing but unparsable
log file returns an empty log without raising; when the backup copy
succeeds, the corrupt file is copied to
`<original_name>.corrupted_<unix_ts>.bak` and a critical log line names
that backup; and even if the backup copy itself fails, an empty log is
still returned (the copy failure being logged instead). -/
theorem corrupt_log_recovery (file : String) (bts : Int) :
    (load_log file FileState.corrupt bts true).result = Except.ok []
    ∧ (load_log file FileState.corrupt bts true).backupCreated
        = some (file ++ ".corrupted_" ++ toString bts ++ ".bak")
    ∧ (load_log file FileState.corrupt bts true).criticalNamedBackup
        = some (file ++ ".corrupted_" ++ toString bts ++ ".bak")
    ∧ (load_log file FileState.corrupt bts false).result = Except.ok []
    ∧ (load_log file FileState.corrupt bts false).backupErrorLogged = true := by
  exact ⟨rfl, rfl, rfl, rfl, rfl⟩

theorem should_reply_after_save (thr : ℚ) (file c : String) (log0 : Log)
    (t1 now : ℚ) (bts2 : Int) (ck2 : Bool) :
    should_reply thr file (FileState.ok (logSet log0 c (now_iso t1))) bts2 ck2 c now
      = Except.ok (decide (now - t1 ≥ thr)) := by
  have h1 : logGet (logSet log0 c (now_iso t1)) c = some (now_iso t1) :=
    logGet_logSet_same log0 c (now_iso t1)
  have h2 : convert_to_timestamp (now_iso t1) = t1 := by
    simp [now_iso, convert_to_timestamp]
  simp [should_reply, load_log, should_reply_core, h1, h2]

/-- Claim C1 — cooldown monotonicity: once `save_log` has recorded a
reply to correspondent `c` at instant `t1` (and the write succeeded),
`should_reply` evaluated at `t1 + d` answers `false` for every
`d < CONVERSATION_THRESHOLD_SEC` and `true` for every
`d ≥ CONVERSATION_THRESHOLD_SEC`; and on any log with no entry for `c`,
the decision is `true`. -/
theorem cooldown_monotonicity (thr : ℚ) (file c : String) (fs : FileState)
    (t1 d : ℚ) (bts bts2 : Int) (ck ck2 : Bool)
    (hsave : (save_log file c fs t1 bts ck true).result = Except.ok ()) :
    (d < thr →
      should_reply thr file (save_log file c fs t1 bts ck true).fsAfter bts2 ck2 c (t1 + d)
        = Except.ok false)
    ∧ (thr ≤ d →
      should_reply thr file (save_log file c fs t1 bts ck true).fsAfter bts2 ck2 c (t1 + d)
        = Except.ok true)
    ∧ (∀ (log : Log) (now : ℚ), logGet log c = none →
        should_reply_core thr log c now = true) := by
  have hload : ∃ log0, (load_log file fs bts ck).result = Except.ok log0 := by
    cases fs with
    | ioError => simp [save_log, load_log] at hsave
    | absent => exact ⟨[], rfl⟩
    | ok log0 => exact ⟨log0, rfl⟩
    | corrupt => cases ck <;> exact ⟨[], rfl⟩
  obtain ⟨log0, hloadEq⟩ := hload
  have hfs : (save_log file c fs t1 bts ck true).fsAfter
      = FileState.ok (logSet log0 c (now_iso t1)) := by
    simp [save_log, hloadEq]
  have hd : t1 + d - t1 = d := by ring
  have key : should_reply thr file (save_log file c fs t1 bts ck true).fsAfter bts2 ck2 c (t1 + d)
      = Except.ok (decide (d ≥ thr)) := by
    rw [hfs, should_reply_after_save, hd]
  refine ⟨?_, ?_, ?_⟩
  · intro hlt
    rw [key, decide_eq_false (not_le.mpr hlt)]
  · intro hge
    rw [key, decide_eq_true hge]
  · intro log now hnone
    simp [should_reply_core, hnone]

theorem cooldown_monotonicity_witness :
    (3 : ℚ) < 10
    ∧ should_reply 10 ("log.json")
        (save_log ("log.json") ("u1") (FileState.ok []) 0 0 true true).fsAfter
        0 true ("u1") (0 + 3)
      = Except.ok false := by
  refine ⟨by norm_num, ?_⟩
  exact (cooldown_monotonicity 10 ("log.json") ("u1") (FileState.ok []) 0 3 0 0
    true true rfl).1 (by norm_num)

/-- Claim C8 — timestamp parsing tolerance: numeric epoch values pass
through; an ISO string with a timezone offset converts to UTC; one
without an offset is interpreted as UTC (same result as an explicit
zero offset); a malformed string is logged and treated as epoch 0, so
`should_reply` answers `true` for a correspondent whose stored value is
malformed (whenever the current time is at least the cooldown window,
as any real epoch instant is). -/
theorem timestamp_parsing_tolerance (x w off thr now : ℚ) (raw : String)
    (log : Log) (c : String)
    (hmal : logGet log c = some (TimeValue.iso (IsoString.malformed raw)))
    (hnow : thr ≤ now) :
    convert_to_timestamp (TimeValue.num x) = x
    ∧ convert_to_timestamp (TimeValue.iso (IsoString.valid w (some off))) = w - off
    ∧ convert_to_timestamp (TimeValue.iso (IsoString.valid w none))
        = convert_to_timestamp (TimeValue.iso (IsoString.valid w (some 0)))
    ∧ convert_to_timestamp (TimeValue.iso (IsoString.malformed raw)) = 0
    ∧ convert_logged_error (TimeValue.iso (IsoString.malformed raw)) = true
    ∧ should_reply_core thr log c now = true := by
  refine ⟨rfl, rfl, by simp [convert_to_timestamp], rfl, rfl, ?_⟩
  simp [should_reply_core, hmal, convert_to_timestamp]
  linarith

theorem timestamp_parsing_tolerance_witness :
    should_reply_core 5 [(("u1"), TimeValue.iso (IsoString.malformed ("oops")))]
      ("u1") 100 = true := by
  exact (timestamp_parsing_tolerance 0 0 0 5 100 ("oops")
    [(("u1"), TimeValue.iso (IsoString.malformed ("oops")))] ("u1")
    (by decide) (by norm_num)).2.2.2.2.2

/-- Claim C9 — upsert frame property: a successful `save_log` for
correspondent `c` replaces the persisted log with one in which `c`'s
entry is the current UTC instant (in ISO form, converting back to
exactly the save instant), every other correspondent's entry is
unchanged, and key uniqueness (at most one entry per correspondent) is
preserved. -/
theorem record_reply_frame (file c c2 : String) (log0 : Log) (t : ℚ)
    (bts : Int) (ck : Bool)
    (hne : c2 ≠ c) (hnodup : (logKeys log0).Nodup) :
    (save_log file c (FileState.ok log0) t bts ck true).fsAfter
        = FileState.ok (logSet log0 c (now_iso t))
    ∧ logGet (logSet log0 c (now_iso t)) c = some (now_iso t)
    ∧ convert_to_timestamp (now_iso t) = t
    ∧ logGet (logSet log0 c (now_iso t)) c2 = logGet log0 c2
    ∧ (logKeys (logSet log0 c (now_iso t))).Nodup := by
  refine ⟨rfl, logGet_logSet_same log0 c (now_iso t),
    by simp [now_iso, convert_to_timestamp],
    logGet_logSet_other log0 c c2 (now_iso t) hne,
    logKeys_logSet_nodup log0 c (now_iso t) hnodup⟩

theorem record_reply_frame_witness :
    logGet (logSet [(("a"), TimeValue.num 1)] ("u1") (now_iso 7)) ("a")
      = some (TimeValue.num 1)
    ∧ (logKeys (logSet [(("a"), TimeValue.num 1)] ("u1") (now_iso 7))).Nodup := by
  have h := record_reply_frame ("f") ("u1") ("a") [(("a"), TimeValue.num 1)] 7 0 true
    (by decide) (by decide)
  exact ⟨h.2.2.2.1, h.2.2.2.2⟩

/-- Claim C10 — probe failures are cached: when the probe raises during
a cache miss at `t0`, the fail-safe `false` is stored in the cache
stamped `t0` (and the error logged); any later status query within the
ttl then answers `false` straight from the cache — whatever the probe
would now return — leaving the cache untouched. -/
theorem probe_failure_cached (thr : ℚ) (cache : AdminStatusCache) (t0 t : ℚ)
    (probe2 : ProbeResult)
    (hmiss : AdminStatusCache.get cache t0 = none)
    (hwithin : t - t0 < cache.ttl) :
    (check_admin_online_status thr cache ProbeResult.error t0).is_online = false
    ∧ (check_admin_online_status thr cache ProbeResult.error t0).cache
        = AdminStatusCache.mk cache.ttl false t0
    ∧ (check_admin_online_status thr cache ProbeResult.error t0).probeErrorLogged = true
    ∧ check_admin_online_status thr (AdminStatusCache.mk cache.ttl false t0) probe2 t
        = CheckResult.mk false (AdminStatusCache.mk cache.ttl false t0) false := by
  have h1 : check_admin_online_status thr cache ProbeResult.error t0
      = CheckResult.mk false (AdminStatusCache.set cache false t0) true := by
    simp [check_admin_online_status, hmiss]
  have h2 : AdminStatusCache.get (AdminStatusCache.mk cache.ttl false t0) t
      = some false := by
    simp [AdminStatusCache.get, hwithin]
  rw [h1]
  refine ⟨rfl, rfl, rfl, ?_⟩
  simp [check_admin_online_status, h2]

theorem probe_failure_cached_witness :
    check_admin_online_status 600 (AdminStatusCache.mk 30 false 50)
      (ProbeResult.ok UserStatus.online) 60
      = CheckResult.mk false (AdminStatusCache.mk 30 false 50) false := by
  have h := probe_failure_cached 600 (AdminStatusCache.init 30) 50 60
    (ProbeResult.ok UserStatus.online)
    (by norm_num [AdminStatusCache.get, AdminStatusCache.init])
    (by norm_num [AdminStatusCache.init])
  exact h.2.2.2

/-- Claim C4 — probe failure is fail-safe: when the event passes the
filters and the anti-spam check, the status cache misses, and the probe
raises, `process_message` logs the probe error, does not let it escape,
does not abort the reply, sends the response assembled with the offline
variant text, and leaves the fail-safe `false` in the cache — whatever
then happens to the log save. -/
theorem probe_failure_fail_safe (cfg : SecretaryConfig) (cache : AdminStatusCache)
    (env : ProcessEnv) (sender : String) (now tSave : ℚ) (log : Log)
    (h1 : env.eventOut = false) (h2 : env.chatIsUser = true) (h3 : env.chatBot = false)
    (h4 : env.fs1 = FileState.ok log)
    (h5 : should_reply_core cfg.conversation_threshold log sender now = true)
    (h6 : AdminStatusCache.get cache now = none)
    (h7 : env.probe = ProbeResult.error)
    (h8 : env.inputChat = SendOutcome.ok)
    (h9 : env.typing = SendOutcome.ok)
    (h10 : env.send = SendOutcome.ok) :
    (process_message cfg cache env sender now tSave).raised = false
    ∧ (process_message cfg cache env sender now tSave).probeErrorLogged = true
    ∧ (process_message cfg cache env sender now tSave).sentText
        = some (cfg.header ++ cfg.dynamic_offline ++ cfg.action_text)
    ∧ (process_message cfg cache env sender now tSave).cache
        = AdminStatusCache.mk cache.ttl false now := by
  have hck : check_admin_online_status cfg.online_threshold cache env.probe now
      = CheckResult.mk false (AdminStatusCache.set cache false now) true := by
    rw [h7]
    simp [check_admin_online_status, h6]
  cases hsv : (save_log cfg.responses_file sender env.fs2 tSave env.bts2
      env.copyOk2 env.writeOk).result with
  | error e =>
    simp [process_message, h1, h2, h3, h4, h5, h8, h9, h10, load_log, hck, hsv,
      response_text, AdminStatusCache.set]
  | ok u =>
    simp [process_message, h1, h2, h3, h4, h5, h8, h9, h10, load_log, hck, hsv,
      response_text, AdminStatusCache.set]

/-- Claim C7 — failed-send atomicity: once the event has passed the
filters and the anti-spam check, a `FloodWaitError` from the typing
indicator or the send makes the handler sleep the transport-specified
backoff and abandon the event with no log write and no reply delivered;
any other exception from those calls is logged and the event abandoned,
again with no log write — so the correspondent's eligibility is
untouched by a failed attempt. -/
theorem failed_send_atomicity (cfg : SecretaryConfig) (cache : AdminStatusCache)
    (env : ProcessEnv) (sender : String) (now tSave : ℚ) (log : Log)
    (h1 : env.eventOut = false) (h2 : env.chatIsUser = true) (h3 : env.chatBot = false)
    (h4 : env.fs1 = FileState.ok log)
    (h5 : should_reply_core cfg.conversation_threshold log sender now = true)
    (h8 : env.inputChat = SendOutcome.ok) :
    (∀ s : ℚ, env.typing = SendOutcome.floodWait s →
      (process_message cfg cache env sender now tSave).sleptBackoff = some s
      ∧ (process_message cfg cache env sender now tSave).written = none
      ∧ (process_message cfg cache env sender now tSave).sentText = none
      ∧ (process_message cfg cache env sender now tSave).raised = false)
    ∧ (∀ s : ℚ, env.typing = SendOutcome.ok → env.send = SendOutcome.floodWait s →
      (process_message cfg cache env sender now tSave).sleptBackoff = some s
      ∧ (process_message cfg cache env sender now tSave).written = none
      ∧ (process_message cfg cache env sender now tSave).sentText = none
      ∧ (process_message cfg cache env sender now tSave).raised = false)
    ∧ (env.typing = SendOutcome.otherError →
      (process_message cfg cache env sender now tSave).genericErrorLogged = true
      ∧ (process_message cfg cache env sender now tSave).written = none
      ∧ (process_message cfg cache env sender now tSave).sentText = none
      ∧ (process_message cfg cache env sender now tSave).raised = false)
    ∧ (env.typing = SendOutcome.ok → env.send = SendOutcome.otherError →
      (process_message cfg cache env sender now tSave).genericErrorLogged = true
      ∧ (process_message cfg cache env sender now tSave).written = none
      ∧ (process_message cfg cache env sender now tSave).sentText = none
      ∧ (process_message cfg cache env sender now tSave).raised = false) := by
  refine ⟨?_, ?_, ?_, ?_⟩
  · intro s hty
    simp [process_message, h1, h2, h3, h4, h5, h8, hty, load_log]
  · intro s hty hsend
    simp [process_message, h1, h2, h3, h4, h5, h8, hty, hsend, load_log]
  · intro hty
    simp [process_message, h1, h2, h3, h4, h5, h8, hty, load_log]
  · intro hty hsend
    simp [process_message, h1, h2, h3, h4, h5, h8, hty, hsend, load_log]

/-- A small concrete configuration used to evaluate the engine on
concrete runs. -/
def sampleConfig : SecretaryConfig :=
  SecretaryConfig.mk 600 600 ("H") ("ON") ("OFF") ("A") ("responses_log.json")

/-- External-call outcomes for a run in which everything succeeds
except the reload inside `save_log`, which hits an I/O error. -/
def envSaveIo : ProcessEnv :=
  ProcessEnv.mk false true false (FileState.ok []) 0 true SendOutcome.ok
    (ProbeResult.ok UserStatus.online) SendOutcome.ok SendOutcome.ok
    FileState.ioError 0 true true

/-- Claim C6 counterexample: a cooldown-log load that hits an I/O error
on an existing file — here the reload inside `save_log`, after a
successful send — is caught by the handler's generic `except` clause:
the run raises nothing (so nothing can terminate the process), merely
logs the error, and abandons the event with no log written, the reply
already having been sent. -/
theorem storage_error_caught_in_save_path :
    envSaveIo.fs2 = FileState.ioError
    ∧ (load_log (sampleConfig.responses_file) FileState.ioError 0 true).result
        = Except.error ()
    ∧ (process_message sampleConfig (AdminStatusCache.init 30) envSaveIo ("u1") 0 0).raised
        = false
    ∧ (process_message sampleConfig (AdminStatusCache.init 30) envSaveIo ("u1") 0 0).genericErrorLogged
        = true
    ∧ (process_message sampleConfig (AdminStatusCache.init 30) envSaveIo ("u1") 0 0).written
        = none
    ∧ ((process_message sampleConfig (AdminStatusCache.init 30) envSaveIo ("u1") 0 0).sentText).isSome
        = true := by
  refine ⟨rfl, rfl, ?_, ?_, ?_, ?_⟩ <;> rfl

/-- Claim C6 (amended) — storage unavailability is distinguishable, and
fatal only on the pre-reply path: an existing but unreadable log file
makes `load_log` raise the distinguishable `RuntimeError` (after a
critical log line) instead of returning an empty log; when that happens
during the `should_reply` check the exception escapes the event
handler; but a load failure inside the post-send `save_log` is caught
by the handler's generic `except` clause and only abandons the event. -/
theorem storage_unavailable_distinguishable (file : String) (bts : Int) (ck : Bool)
    (cfg : SecretaryConfig) (cache : AdminStatusCache) (env : ProcessEnv)
    (sender : String) (now tSave : ℚ)
    (h1 : env.eventOut = false) (h2 : env.chatIsUser = true) (h3 : env.chatBot = false)
    (h4 : env.fs1 = FileState.ioError) :
    (load_log file FileState.ioError bts ck).result = Except.error ()
    ∧ (load_log file FileState.ioError bts ck).fatalIoLogged = true
    ∧ (process_message cfg cache env sender now tSave).raised = true := by
  refine ⟨rfl, rfl, ?_⟩
  simp [process_message, h1, h2, h3, h4, load_log]

/-- External-call outcomes for a run in which the `should_reply` load
hits an I/O error. -/
def envLoadIo : ProcessEnv :=
  ProcessEnv.mk false true false FileState.ioError 0 true SendOutcome.ok
    (ProbeResult.ok UserStatus.online) SendOutcome.ok SendOutcome.ok
    (FileState.ok []) 0 true true

theorem storage_unavailable_distinguishable_witness :
    (process_message sampleConfig (AdminStatusCache.init 30) envLoadIo ("u1") 0 0).raised
      = true := by
  exact (storage_unavailable_distinguishable ("f") 0 true sampleConfig
    (AdminStatusCache.init 30) envLoadIo ("u1") 0 0 rfl rfl rfl rfl).2.2

/-- External-call outcomes for a run in which the presence probe
raises and everything else succeeds. -/
def envProbeFail : ProcessEnv :=
  ProcessEnv.mk false true false (FileState.ok []) 0 true SendOutcome.ok
    ProbeResult.error SendOutcome.ok SendOutcome.ok (FileState.ok []) 0 true true

theorem probe_failure_fail_safe_witness :
    (process_message sampleConfig (AdminStatusCache.init 30) envProbeFail ("u1") 100 100).probeErrorLogged
      = true
    ∧ (process_message sampleConfig (AdminStatusCache.init 30) envProbeFail ("u1") 100 100).sentText
      = some (sampleConfig.header ++ sampleConfig.dynamic_offline ++ sampleConfig.action_text) := by
  have h := probe_failure_fail_safe sampleConfig (AdminStatusCache.init 30) envProbeFail
    ("u1") 100 100 [] rfl rfl rfl rfl rfl
    (by norm_num [AdminStatusCache.get, AdminStatusCache.init]) rfl rfl rfl rfl
  exact ⟨h.2.1, h.2.2.1⟩

/-- External-call outcomes for a run in which the typing indicator
raises a `FloodWaitError` with a 5 second backoff. -/
def envFlood : ProcessEnv :=
  ProcessEnv.mk false true false (FileState.ok []) 0 true SendOutcome.ok
    (ProbeResult.ok UserStatus.online) (SendOutcome.floodWait 5) SendOutcome.ok
    (FileState.ok []) 0 true true

theorem failed_send_atomicity_witness :
    (process_message sampleConfig (AdminStatusCache.init 30) envFlood ("u1") 0 0).sleptBackoff
      = some 5
    ∧ (process_message sampleConfig (AdminStatusCache.init 30) envFlood ("u1") 0 0).written
      = none := by
  have h := failed_send_atomicity sampleConfig (AdminStatusCache.init 30) envFlood
    ("u1") 0 0 [] rfl rfl rfl rfl rfl rfl
  exact ⟨(h.1 5 rfl).1, (h.1 5 rfl).2.1⟩
